import Mathlib

/-!
Verification of the cortx financial MCP server: a shallow embedding, in Lean 4,
of the RBAC authorization core (`src/auth/permissions.py`, `src/auth/rbac.py`),
the MCP tool gate (`src/mcp/tools.py`), and the mock reasoning orchestrator
(`src/services/mock_orchestrator.py`), together with theorems settling the
behavioural claims about those components.

Modelling conventions:
* Python dicts carrying fixed keys become structures; absent keys become
  `Option` fields.
* Python truthiness of strings (empty string is falsy) and of dicts (empty
  dict is falsy) is modelled explicitly where the source relies on it.
* Raising `ValidationError` becomes returning `Except.error` of an `RbacError`
  value carrying the same message text.
* External collaborators (JWT decoding, the database, the regex helpers whose
  output feeds a function under study) are parameters of the embedded
  functions, so theorems quantify over their behaviour.
-/

namespace Cortx

/-- Single-quote character, used to reproduce the quoting in the Python
error-message strings. -/
def sq : String := String.singleton (Char.ofNat 39)

/-- Substring test: does `s` contain `pat` as a contiguous substring. -/
def contains_sub (s pat : String) : Bool := decide (pat.toList <:+: s.toList)

/-- Python `str.lower()`, character by character. -/
def lower_string (s : String) : String := (s.toList.map Char.toLower).asString

/-! ## Permission model — src/auth/permissions.py -/

/-- Model of `class Role(str, Enum)` from src/auth/permissions.py. -/
inductive Role where
  | admin
  | analyst
  | viewer
deriving DecidableEq, Repr, Fintype

/-- The `.value` string of each `Role` member. -/
def Role.value : Role → String
  | .admin => "admin"
  | .analyst => "analyst"
  | .viewer => "viewer"

/-- Model of `Role(s)` together with the membership test `s in [r.value for r in Role]`:
returns the role whose value is `s`, or `none` for an unrecognized string. -/
def role_of_string (s : String) : Option Role :=
  if s = "admin" then some .admin
  else if s = "analyst" then some .analyst
  else if s = "viewer" then some .viewer
  else none

/-- Model of `class Permission(str, Enum)` from src/auth/permissions.py. -/
inductive Permission where
  | read_market_data
  | read_transactions
  | read_user_transactions
  | read_portfolios
  | read_user_portfolios
  | read_risk_metrics
  | read_all_data
  | write_all_data
deriving DecidableEq, Repr, Fintype

/-- The `.value` string of each `Permission` member. -/
def Permission.value : Permission → String
  | .read_market_data => "read:market_data"
  | .read_transactions => "read:transactions"
  | .read_user_transactions => "read:user_transactions"
  | .read_portfolios => "read:portfolios"
  | .read_user_portfolios => "read:user_portfolios"
  | .read_risk_metrics => "read:risk_metrics"
  | .read_all_data => "read:all_data"
  | .write_all_data => "write:all_data"

/-- Model of the `ROLE_PERMISSIONS` dict from src/auth/permissions.py (lines 37-57); the
permission sets are kept as lists, membership being the only operation the
source performs on them. -/
def ROLE_PERMISSIONS : List (Role × List Permission) :=
  [ (.viewer, [.read_market_data]),
    (.analyst, [.read_market_data, .read_user_transactions,
                .read_user_portfolios, .read_risk_metrics]),
    (.admin, [.read_market_data, .read_transactions, .read_user_transactions,
              .read_portfolios, .read_user_portfolios, .read_risk_metrics,
              .read_all_data, .write_all_data]) ]

/-- Model of `get_permissions_for_role`: `ROLE_PERMISSIONS.get(role, set())`. -/
def get_permissions_for_role (role : Role) : List Permission :=
  ((ROLE_PERMISSIONS.find? (fun e => e.1 = role)).map Prod.snd).getD []

/-! ## RBAC enforcement core — src/auth/rbac.py -/

/-- Resolved user information, the dict produced by `extract_user_from_token`
or the anonymous fallback in src/auth/rbac.py. -/
structure UserInfo where
  user_id : Int
  username : String
  email : String
  roles : List String
deriving DecidableEq, Repr

/-- The fields of `src/config/settings.py` that the RBAC core reads. -/
structure Settings where
  ALLOW_UNAUTHENTICATED_ACCESS : Bool
  DEBUG : Bool
  DEFAULT_UNAUTHENTICATED_ROLE : String
deriving DecidableEq, Repr

/-- The auth-context dict. `token`/`authorization` are its string-valued
entries (`none` = key absent); `has_other_keys` records whether the dict holds
any further entries (including non-string values under the two token keys),
which matters only for Python dict truthiness. -/
structure AuthContext where
  token : Option String
  authorization : Option String
  has_other_keys : Bool
deriving DecidableEq, Repr

/-- Python truthiness of an optional string: `none` and `""` are falsy. -/
def truthy_str : Option String → Option String
  | some s => if s = "" then none else some s
  | none => none

/-- Python truthiness of the context dict: an absent (`None`) or empty dict is
falsy. -/
def ctx_truthy : Option AuthContext → Bool
  | none => false
  | some c => !(c.token.isNone && c.authorization.isNone && !c.has_other_keys)

/-- Model of `context.get("token") or context.get("authorization")` (rbac.py line 42):
the first truthy value among the two keys. -/
def context_token : Option AuthContext → Option String
  | none => none
  | some c => (truthy_str c.token).or (truthy_str c.authorization)

/-- Model of `has_token = context and (context.get("token") or context.get("authorization"))`
(rbac.py lines 86 and 152), as a boolean. -/
def has_token (ctx : Option AuthContext) : Bool :=
  ctx_truthy ctx && (context_token ctx).isSome

/-- The typed failures of the RBAC core; the `message` of each constructor below is
the message string of the `ValidationError` the source raises. -/
inductive RbacError where
  | authContextRequired
  | authTokenRequired
  | decodeFailed (msg : String)
  | invalidToken (msg : String)
  | noValidRoles
  | accessDenied (msg : String)
  | missingPermissions (perms : List Permission)
deriving DecidableEq, Repr

/-- Renders a Python list-of-strings repr, quoting each item in single quotes. -/
def py_str_list (xs : List String) : String :=
  "[" ++ String.intercalate ", " (xs.map (fun s => sq ++ s ++ sq)) ++ "]"

/-- The `ValidationError` message carried by each `RbacError`. -/
def RbacError.message : RbacError → String
  | .authContextRequired => "Authentication context is required"
  | .authTokenRequired => "Authentication token is required"
  | .decodeFailed msg => msg
  | .invalidToken msg => msg
  | .noValidRoles => "User has no valid roles"
  | .accessDenied msg => msg
  | .missingPermissions perms =>
      "Missing required permissions: " ++ py_str_list (perms.map Permission.value)

/-- The anonymous fallback identity built at rbac.py lines 31-36, 46-52 and
96-102: `{user_id: 0, username: "anonymous", email: "", roles: [default_role]}`. -/
def anonymous_user (default_role : String) : UserInfo :=
  { user_id := 0, username := "anonymous", email := "", roles := [default_role] }

/-- Model of `token[7:]` after the `token.startswith("Bearer ")` check (rbac.py 57-59). -/
def strip_bearer (t : String) : String :=
  if t.startsWith "Bearer " then t.drop 7 else t

/-- Model of `get_user_from_context` (rbac.py lines 12-61). `decode` stands for the
external collaborator `extract_user_from_token`; a `decode` error is the
`ValidationError` that function raises. -/
def get_user_from_context (st : Settings) (decode : String → Except String UserInfo)
    (context : Option AuthContext) : Except RbacError UserInfo :=
  let allow_unauth := st.ALLOW_UNAUTHENTICATED_ACCESS || st.DEBUG
  if allow_unauth && !ctx_truthy context then
    .ok (anonymous_user st.DEFAULT_UNAUTHENTICATED_ROLE)
  else if !ctx_truthy context then
    .error .authContextRequired
  else
    match context_token context with
    | none =>
        if allow_unauth then .ok (anonymous_user st.DEFAULT_UNAUTHENTICATED_ROLE)
        else .error .authTokenRequired
    | some t =>
        match decode (strip_bearer t) with
        | .ok u => .ok u
        | .error m => .error (.decodeFailed m)

/-- The `try/except ValidationError` block duplicated verbatim in
`require_role` (rbac.py 82-102) and `require_permission` (rbac.py 148-168):
a failure with a token present is re-raised as the invalid-token error; a
failure with no token present falls back to the anonymous user only when
unauthenticated access is allowed. -/
def resolve_user_with_fallback (st : Settings) (decode : String → Except String UserInfo)
    (context : Option AuthContext) : Except RbacError UserInfo :=
  match get_user_from_context st decode context with
  | .ok u => .ok u
  | .error e =>
      if has_token context then
        .error (.invalidToken ("Invalid or expired authentication token: " ++ e.message))
      else if st.ALLOW_UNAUTHENTICATED_ACCESS || st.DEBUG then
        .ok (anonymous_user st.DEFAULT_UNAUTHENTICATED_ROLE)
      else
        .error e

/-- Model of `[Role(role) for role in user_info.get("roles", []) if role in [r.value for r in Role]]`
(rbac.py lines 104 and 170). -/
def parse_roles (roles : List String) : List Role :=
  roles.filterMap role_of_string

/-- Output threaded to the wrapped function by `require_permission`
(`current_user`, `user_roles`, `user_permissions` kwargs). -/
structure GateSuccess where
  current_user : UserInfo
  user_roles : List Role
  user_permissions : List Permission
deriving DecidableEq, Repr

/-- Model of the `require_role` decorator wrapper (rbac.py lines 64-127), up to and
including the role check; on success the wrapped function receives the
resolved user and roles. -/
def require_role (st : Settings) (decode : String → Except String UserInfo)
    (allowed_roles : List Role) (context : Option AuthContext) :
    Except RbacError (UserInfo × List Role) :=
  match resolve_user_with_fallback st decode context with
  | .error e => .error e
  | .ok user_info =>
      let user_roles := parse_roles user_info.roles
      if user_roles = [] then .error .noValidRoles
      else if user_roles.any (fun r => allowed_roles.contains r) then
        .ok (user_info, user_roles)
      else
        .error (.accessDenied
          ("Access denied. Required roles: " ++ py_str_list (allowed_roles.map Role.value)
            ++ ", User roles: " ++ py_str_list (user_roles.map Role.value)))

/-- Model of the `require_permission` decorator wrapper (rbac.py lines 130-196). The user
permission set is accumulated as a list; only membership is ever used, so the
Python `set.update` union is modelled by concatenation. -/
def require_permission (st : Settings) (decode : String → Except String UserInfo)
    (required_permissions : List Permission) (context : Option AuthContext) :
    Except RbacError GateSuccess :=
  match resolve_user_with_fallback st decode context with
  | .error e => .error e
  | .ok user_info =>
      let user_roles := parse_roles user_info.roles
      if user_roles = [] then .error .noValidRoles
      else
        let user_permissions :=
          user_roles.foldl (fun acc r => acc ++ get_permissions_for_role r) []
        let missing := required_permissions.filter (fun p => !user_permissions.contains p)
        if missing ≠ [] then .error (.missingPermissions missing)
        else .ok ⟨user_info, user_roles, user_permissions⟩

/-- Model of `check_user_access` (rbac.py lines 199-229). -/
def check_user_access (user_id : Int) (current_user : UserInfo)
    (user_roles : List Role) : Bool :=
  if user_roles.contains .admin then true
  else if user_roles.contains .analyst then user_id = current_user.user_id
  else false

/-- Model of `enforce_user_access` (rbac.py lines 232-252). -/
def enforce_user_access (user_id : Option Int) (current_user : UserInfo)
    (user_roles : List Role) : Except RbacError Unit :=
  match user_id with
  | none => .ok ()
  | some uid =>
      if check_user_access uid current_user user_roles then .ok ()
      else .error (.accessDenied
        ("Access denied. User " ++ toString current_user.user_id
          ++ " cannot access data for user " ++ toString uid))

/-! ## MCP tool gate — src/mcp/tools.py -/

/-- The result envelope `{content: [{type: "text", text}], isError}` returned
by `call_tool`; every content item the source builds has `type: "text"`, so
the content list is kept as the list of its text fields. -/
structure Envelope where
  content : List String
  isError : Bool
deriving DecidableEq, Repr

/-- The `except ValidationError` arm of `call_tool` (tools.py lines 168-172):
an RBAC or validation failure inside a tool surfaces as an error envelope with
this text. -/
def validation_error_envelope (name msg : String) : Envelope :=
  { content := ["Validation error in tool " ++ sq ++ name ++ sq ++ ": " ++ msg],
    isError := true }

/-- Model of `_query_transactions` (tools.py lines 206-290) as dispatched by
`call_tool`, restricted to its authorization skeleton: the
`require_permission(Permission.READ_TRANSACTIONS, Permission.READ_USER_TRANSACTIONS)`
decorator, then the ownership check `enforce_user_access` applied when a
`user_id` argument is present and the caller is not an admin. `body` stands
for the remainder of the tool (date parsing, risk-score validation, the
database query and result formatting), which no claim touches. A raised
`ValidationError` is rendered by `call_tool` as an error envelope. -/
def query_transactions_tool (st : Settings) (decode : String → Except String UserInfo)
    (body : GateSuccess → Envelope) (user_id_arg : Option Int)
    (context : Option AuthContext) : Envelope :=
  match require_permission st decode
      [.read_transactions, .read_user_transactions] context with
  | .error e => validation_error_envelope "query_transactions" e.message
  | .ok g =>
      if user_id_arg.isSome && !g.user_roles.contains .admin then
        match enforce_user_access user_id_arg g.current_user g.user_roles with
        | .error e => validation_error_envelope "query_transactions" e.message
        | .ok _ => body g
      else body g

/-! ## Mock reasoning orchestrator — src/services/mock_orchestrator.py

The generator `MockReasoningOrchestrator.reason` is embedded as a pure
function from its collaborators to the list of events it yields, in yield
order. The collaborators are parameters:

* `parse1` — the value of `_parse_query_to_tools(query, user_id, None)`
  computed on turn 1;
* `parse` — `_parse_query_to_tools(query, user_id, previous_results)` as a
  function of the accumulated results (turns 2+);
* `exec` — `call_tool`: either a returned envelope or an exception
  (`.raised`), matching the `try/except` around the call (lines 164-235);
* `chain` — `_determine_chained_tools(query, turn_results, all_results)`;
* `gen` — `_generate_final_answer`; an `Except.error` models the
  `except Exception` arm at line 265 (synthesis raising).

Tool arguments are an arbitrary type `A`: the loop never inspects them.
`asyncio.sleep`, `RequestContext.record_tool_call` and the observability
hooks are effect-free with respect to the event stream and are not modelled;
`json.dumps`/`json.loads` of the already-constructed answer strings are
modelled as total (they are, for the string/number/bool data involved), so
the outer `except Exception` handler (lines 317-363) is unreachable in the
model and its `error` event constructor stays unused. -/

/-- The events yielded by `reason`, with the fields each carries in the
source. -/
inductive Event where
  | thinking (content : String) (step_number : Nat)
  | tool_call (content : String) (step_number : Nat) (tool_name : String)
  | tool_result (content : String) (step_number : Nat) (tool_name : String) (is_error : Bool)
  | answer (content : String) (step_number : Nat)
  | error (content : String) (step_number : Nat)
  | done (content : String) (step_number : Nat) (final_answer : String) (tool_calls_made : Nat)
deriving DecidableEq, Repr

def Event.isAnswer : Event → Bool
  | .answer _ _ => true
  | _ => false

def Event.isDone : Event → Bool
  | .done _ _ _ _ => true
  | _ => false

def Event.isToolCall : Event → Bool
  | .tool_call _ _ _ => true
  | _ => false

/-- Is this a `tool_result` event carrying `is_error: true`. -/
def Event.isErrorResult : Event → Bool
  | .tool_result _ _ _ b => b
  | _ => false

/-- A tool invocation `{name, arguments}` produced by the parser. -/
structure ToolCall (A : Type) where
  name : String
  arguments : A
deriving DecidableEq, Repr

/-- An entry of `all_tool_results` (lines 195-200 and 228-233). -/
structure ToolResultEntry (A : Type) where
  tool_name : String
  result : String
  is_error : Bool
  arguments : A
deriving DecidableEq, Repr

/-- Outcome of `call_tool` as seen by `reason`: a returned envelope, or an
exception caught by the `except Exception as e` arm. -/
inductive ExecOutcome where
  | envelope (env : Envelope)
  | raised (msg : String)
deriving DecidableEq, Repr

/-- Model of `_format_tool_result` (lines 789-803). -/
def format_tool_result (env : Envelope) : String :=
  if env.isError then
    match env.content with
    | [] => "Unknown error occurred"
    | t :: _ => t
  else
    if env.content = [] then "No results"
    else String.intercalate "\n" env.content

/-- One execution of the tool-call block (lines 153-235) on tool call `tc`
with outcome `outcome`, starting from step counter `step`: the `tool_call`
and `tool_result` events yielded, the `ToolResultEntry` recorded, and the
increment of `tool_calls_used` (1 on the non-exception path only). -/
def execute_tool_block {A : Type} (tc : ToolCall A) (outcome : ExecOutcome)
    (step : Nat) : List Event × ToolResultEntry A × Nat :=
  let callEv := Event.tool_call ("Calling tool: " ++ tc.name) (step + 1) tc.name
  match outcome with
  | .envelope env =>
      ([callEv,
        Event.tool_result ("Tool " ++ tc.name ++ " completed successfully")
          (step + 2) tc.name false],
       { tool_name := tc.name, result := format_tool_result env,
         is_error := env.isError, arguments := tc.arguments }, 1)
  | .raised msg =>
      ([callEv,
        Event.tool_result ("Tool " ++ tc.name ++ " encountered an error")
          (step + 2) tc.name true],
       { tool_name := tc.name, result := "Error: " ++ msg,
         is_error := true, arguments := tc.arguments }, 0)

/-- Constant `MAX_TURNS = 5` (line 83): the hard, non-configurable chaining cap. -/
def MAX_TURNS : Nat := 5

/-- The `while conversation_turn < MAX_TURNS` loop of `reason`
(lines 103-249), entered with a non-empty `tools_to_call`. `remaining` is
`MAX_TURNS - conversation_turn` for the turn about to run, so the first call
passes `MAX_TURNS - 1`. Faithful to the source, the `for tool_call in
tools_to_call` loop (lines 149-151) only rebinds `tool_name`/`tool_args`, so
each turn executes exactly one tool: the last element of `tools_to_call`.
After a turn, if turns remain and `_determine_chained_tools` proposes more
tools, the loop re-enters and `_parse_query_to_tools` recomputes
`tools_to_call` from the accumulated results (the `tools_to_call = next_tools`
assignment at line 245 is dead); a turn-2+ parse returning no tools breaks the
loop (lines 143-145). Returns the events yielded, the final step counter,
`tool_calls_used`, and `all_tool_results`. -/
def conversation_loop {A : Type}
    (parse : List (ToolResultEntry A) → List (ToolCall A))
    (exec : ToolCall A → ExecOutcome)
    (chain : List (ToolResultEntry A) → List (ToolResultEntry A) → List (ToolCall A)) :
    Nat → List (ToolCall A) → Nat → Nat → List (ToolResultEntry A) →
    List Event × Nat × Nat × List (ToolResultEntry A)
  | remaining, tools_to_call, step, used, all_results =>
    match tools_to_call.getLast? with
    | none => ([], step, used, all_results)
    | some tc =>
        let (evs, entry, d) := execute_tool_block tc (exec tc) step
        let step := step + 2
        let used := used + d
        let all_results := all_results ++ [entry]
        match remaining with
        | 0 => (evs, step, used, all_results)
        | r + 1 =>
            if (chain [entry] all_results).isEmpty then (evs, step, used, all_results)
            else
              match parse all_results with
              | [] => (evs, step, used, all_results)
              | next@(_ :: _) =>
                  let (evs2, step2, used2, all2) :=
                    conversation_loop parse exec chain r next step used all_results
                  (evs ++ evs2, step2, used2, all2)

/-- Model of `_generate_thinking_text` (lines 770-787). -/
def generate_thinking_text (query : String) : String :=
  let ql := lower_string query
  "Analyzing your query: " ++ sq ++ query ++ sq ++ "\n\n"
    ++ (if contains_sub ql "portfolio" || contains_sub ql "risk" then
          "I" ++ sq ++ "ll analyze the portfolio risk metrics for you.\n" else "")
    ++ (if contains_sub ql "transaction" then
          "I" ++ sq ++ "ll query the transaction database with your filters.\n" else "")
    ++ (if contains_sub ql "market" || contains_sub ql "price" || contains_sub ql "stock" then
          "I" ++ sq ++ "ll retrieve market data and price information.\n" else "")
    ++ "\nLet me call the appropriate tools to get this information..."

/-- Model of `_generate_help_message` (lines 1041-1059); the emoji section markers are
elided, the surrounding text is kept. -/
def generate_help_message (query : String) : String :=
  "I couldn" ++ sq ++ "t determine which tools to use for: " ++ sq ++ query ++ sq ++ "\n\n"
    ++ "Here are some example queries I can help with:\n\n"
    ++ "Portfolio Analysis:\n"
    ++ "  • " ++ sq ++ "Analyze portfolio 1" ++ sq ++ "\n"
    ++ "  • " ++ sq ++ "What" ++ sq ++ "s the risk of portfolio 2?" ++ sq ++ "\n"
    ++ "  • " ++ sq ++ "Calculate risk for portfolio 1 over 60 days" ++ sq ++ "\n\n"
    ++ "Transactions:\n"
    ++ "  • " ++ sq ++ "Show transactions for user 5" ++ sq ++ "\n"
    ++ "  • " ++ sq ++ "Get high risk transactions from last week" ++ sq ++ "\n"
    ++ "  • " ++ sq ++ "Find transactions over $1000" ++ sq ++ "\n\n"
    ++ "Market Data:\n"
    ++ "  • " ++ sq ++ "Get market summary for AAPL" ++ sq ++ "\n"
    ++ "  • " ++ sq ++ "Show me GOOGL and TSLA prices" ++ sq ++ "\n"
    ++ "  • " ++ sq ++ "Market data for tech stocks" ++ sq ++ "\n\n"
    ++ "Try rephrasing your query using these patterns!"

/-- Model of `_chunk_text` (lines 1061-1066) on an exploded string, with positive chunk
size `n + 1`. -/
def chunk_chars (n : Nat) : List Char → List (List Char)
  | [] => []
  | c :: cs => (c :: cs.take n) :: chunk_chars n (cs.drop n)
termination_by cs => cs.length
decreasing_by simp [List.length_drop]; omega

/-- Model of `_chunk_text(text, chunk_size=50)`. -/
def chunk_text (text : String) (chunk_size : Nat) : List String :=
  (chunk_chars (chunk_size - 1) text.toList).map List.asString

/-- The streamed `answer` events of the help path (lines 126-133), one per
chunk, each incrementing the step counter from `step`; afterwards the step
counter stands at `step` plus the number of chunks. -/
def answer_chunk_events : List String → Nat → List Event
  | [], _ => []
  | c :: cs, step => Event.answer c (step + 1) :: answer_chunk_events cs (step + 1)

/-- The `json.dumps` fallback built when `_generate_final_answer` raises
(lines 265-275). Only its totality and distinctness matter to the claims, so
the JSON envelope is abbreviated to the fields it would carry. -/
def error_format_answer (query : String) (tools_called : Nat) (msg : String) : String :=
  "status: error; query: " ++ query ++ "; tools_called: " ++ toString tools_called
    ++ "; answer: Error formatting response: " ++ msg
    ++ "; message: Analysis completed but response formatting failed"

/-- The `json.dumps` answer built when no tool results accumulated
(lines 258-264); abbreviated as above. -/
def no_tools_answer (query : String) : String :=
  "status: success; query: " ++ query
    ++ "; tools_called: 0; message: Query processed but no tools were called"

/-- Model of `MockReasoningOrchestrator.reason` (lines 53-315) as the list of events it
yields. -/
def reason {A : Type} (parse1 : List (ToolCall A))
    (parse : List (ToolResultEntry A) → List (ToolCall A))
    (exec : ToolCall A → ExecOutcome)
    (chain : List (ToolResultEntry A) → List (ToolResultEntry A) → List (ToolCall A))
    (gen : List (ToolResultEntry A) → Except String String)
    (query : String) (include_thinking : Bool) : List Event :=
  let (step0, evs0) :=
    if include_thinking then
      (1, [Event.thinking (generate_thinking_text query) 1])
    else (0, ([] : List Event))
  match parse1 with
  | [] =>
      let help := generate_help_message query
      let guidance := Event.thinking
        ("I" ++ sq ++ "m not sure which tools to use for this query. Let me provide some guidance...")
        (step0 + 1)
      let chunks := chunk_text help 50
      evs0 ++ [guidance] ++ answer_chunk_events chunks (step0 + 1)
        ++ [Event.done "Query processed (no tools called)"
              (step0 + 1 + chunks.length + 1) help 0]
  | t :: ts =>
      let (evs, step, used, all_results) :=
        conversation_loop parse exec chain (MAX_TURNS - 1) (t :: ts) step0 0 []
      let final_answer :=
        if all_results.isEmpty then no_tools_answer query
        else
          match gen all_results with
          | .ok s => s
          | .error m => error_format_answer query used m
      evs0 ++ evs
        ++ [Event.answer final_answer (step + 1),
            Event.done "Reasoning complete" (step + 2) final_answer used]

/-! ## Chaining decision — `_determine_chained_tools` and the chaining prefix
of `_parse_query_to_tools` -/

/-- The tool arguments the chaining logic inspects:
`arguments.get("symbols", [])` and the `period` key. -/
structure MarketArguments where
  symbols : Option (List String)
  period : Option String
deriving DecidableEq, Repr

/-- Model of `set(a) == set(b)` on lists of symbols. -/
def sym_set_eq (a b : List String) : Bool :=
  a.all (fun x => b.contains x) && b.all (fun x => a.contains x)

/-- The `portfolio_symbols` field computed by `_extract_data_from_results`
(lines 618-657): the symbol list extracted from the last non-error
`analyze_risk_metrics` result whose extraction is non-empty. `extract_sym`
stands for `_extract_symbols_from_portfolio_result`, which regex-matches the
portfolio id out of the result text and queries the database for the
asset symbols of that portfolio (both external to this model). -/
def extract_portfolio_symbols (extract_sym : String → List String)
    (tool_results : List (ToolResultEntry MarketArguments)) : List String :=
  tool_results.foldl
    (fun acc r =>
      if r.tool_name = "analyze_risk_metrics" && !r.is_error then
        match extract_sym r.result with
        | [] => acc
        | s :: ss => s :: ss
      else acc)
    []

/-- Model of `_determine_chained_tools` (lines 729-768). The Python locals `ql`,
`portfolio_tools`, `symbols`, `market_tools` are inlined. -/
def determine_chained_tools (extract_sym : String → List String) (query : String)
    (current_turn_results all_results : List (ToolResultEntry MarketArguments)) :
    List (ToolCall MarketArguments) :=
  if !(current_turn_results.filter
        (fun r => r.tool_name = "analyze_risk_metrics")).isEmpty
      && (["market", "price", "holdings", "stock", "symbol"].any
            (fun kw => contains_sub (lower_string query) kw)) then
    match (all_results.filter
        (fun r => r.tool_name = "get_market_summary")).getLast? with
    | some m =>
        if sym_set_eq (extract_portfolio_symbols extract_sym all_results)
            (m.arguments.symbols.getD []) then []
        else if !(extract_portfolio_symbols extract_sym all_results).isEmpty then
          [{ name := "get_market_summary",
             arguments := ⟨some (extract_portfolio_symbols extract_sym all_results),
               some "day"⟩ }]
        else []
    | none =>
        if !(extract_portfolio_symbols extract_sym all_results).isEmpty then
          [{ name := "get_market_summary",
             arguments := ⟨some (extract_portfolio_symbols extract_sym all_results),
               some "day"⟩ }]
        else []
  else []

/-- The `if previous_results:` chaining prefix of `_parse_query_to_tools`
(lines 387-408): `some tools` models reaching one of its `return` statements
(`return []` on the dedup hit, `return tools_to_call` on a chained market
call); `none` models falling through to the normal turn-1 parsing. -/
def parse_query_previous_chain (extract_sym : String → List String) (query : String)
    (previous_results : List (ToolResultEntry MarketArguments)) :
    Option (List (ToolCall MarketArguments)) :=
  if !(extract_portfolio_symbols extract_sym previous_results).isEmpty
      && (["market", "price", "holdings", "stock"].any
            (fun kw => contains_sub (lower_string query) kw)) then
    match (previous_results.filter
        (fun r => r.tool_name = "get_market_summary")).getLast? with
    | some m =>
        if sym_set_eq (extract_portfolio_symbols extract_sym previous_results)
            (m.arguments.symbols.getD []) then some []
        else some [{ name := "get_market_summary",
                     arguments := ⟨some (extract_portfolio_symbols extract_sym previous_results),
                       some "day"⟩ }]
    | none =>
        some [{ name := "get_market_summary",
                arguments := ⟨some (extract_portfolio_symbols extract_sym previous_results),
                  some "day"⟩ }]
  else none

/-! ## Answer synthesis — `_generate_final_answer` (lines 805-859) -/

/-- An entry of the `errors` list of the final answer. -/
structure ErrorEntry where
  tool : String
  error : String
deriving DecidableEq, Repr

/-- Model of `_get_status_message` (lines 861-868). -/
def get_status_message (has_success has_errors : Bool) (tool_count : Nat) : String :=
  if has_success && !has_errors then
    "Analysis complete. Retrieved data from " ++ toString tool_count ++ " tool(s)."
  else if has_success && has_errors then
    "Analysis complete with some errors. Partial data retrieved from "
      ++ toString tool_count ++ " tool(s)."
  else
    "Unable to retrieve data. All " ++ toString tool_count
      ++ " tool(s) encountered errors."

/-- The JSON object built by `_generate_final_answer`, with the per-tool
structured summaries of type `S`. `errors = []` models the `errors` key being
absent, and `portfolio_id = none` that key being absent. -/
structure FinalAnswerObj (S : Type) where
  status : String
  query : String
  tools_called : Nat
  results : List (String × S)
  message : String
  portfolio_id : Option Nat
  errors : List ErrorEntry
deriving Repr

/-- Model of `_generate_final_answer` (lines 805-859). `summarize` stands for
`_summarize_tool_result_structured` together with its `except` fallback at
lines 831-837 (a total function of tool name and result text); `extract_pid`
stands for the `_extract_portfolio_id` regex. `results` is kept as an
association list in iteration order; the source stores it in a dict keyed by
tool name. -/
def generate_final_answer {A S : Type} (summarize : String → String → S)
    (extract_pid : String → Option Nat) (query : String)
    (tool_results : List (ToolResultEntry A)) : FinalAnswerObj S :=
  let has_errors := tool_results.any (fun tr => tr.is_error)
  let has_success := tool_results.any (fun tr => !tr.is_error)
  let errors := (tool_results.filter (fun tr => tr.is_error)).map
    (fun tr => ErrorEntry.mk tr.tool_name tr.result)
  let summary_data := (tool_results.filter (fun tr => !tr.is_error)).map
    (fun tr => (tr.tool_name, summarize tr.tool_name tr.result))
  { status :=
      if has_success && !has_errors then "success"
      else if has_success then "partial"
      else "error",
    query := query,
    tools_called := tool_results.length,
    results := summary_data,
    message := get_status_message has_success has_errors tool_results.length,
    portfolio_id := extract_pid query,
    errors := errors }

/-! ## Helper lemmas -/

/-- A truthy token in the context makes `has_token` true. -/
theorem has_token_of_context_token {ctx : Option AuthContext} {t : String}
    (h : context_token ctx = some t) : has_token ctx = true := by
  cases ctx with
  | none => simp [context_token] at h
  | some c =>
      have hsome : (context_token (some c)).isSome = true := by rw [h]; rfl
      have hne : ctx_truthy (some c) = true := by
        rcases hc : c.token with _ | s
        · rcases ha : c.authorization with _ | s2
          · rw [context_token] at h
            simp [hc, ha, truthy_str] at h
          · simp [ctx_truthy, ha]
        · simp [ctx_truthy, hc]
      simp [has_token, hne, hsome]

/-- A truthy token in the context makes the context itself truthy. -/
theorem ctx_truthy_of_context_token {ctx : Option AuthContext} {t : String}
    (h : context_token ctx = some t) : ctx_truthy ctx = true := by
  have := has_token_of_context_token h
  simp only [has_token, Bool.and_eq_true] at this
  exact this.1

/-! ## Claim theorems -/

/-- C7. In the static role-to-permission mapping, every permission granted to
viewer is also granted to analyst; the admin permission set equals the analyst set
united with exactly {read:transactions, read:portfolios, read:all_data,
write:all_data}; the admin set is a strict superset of the analyst set; and the
mapping is total over the three roles. -/
theorem role_permission_mapping_invariant :
    (∀ p : Permission, p ∈ get_permissions_for_role .viewer →
        p ∈ get_permissions_for_role .analyst) ∧
    (∀ p : Permission, p ∈ get_permissions_for_role .admin ↔
        (p ∈ get_permissions_for_role .analyst ∨
          p ∈ ([.read_transactions, .read_portfolios, .read_all_data,
                .write_all_data] : List Permission))) ∧
    (∀ p : Permission, p ∈ get_permissions_for_role .analyst →
        p ∈ get_permissions_for_role .admin) ∧
    (∃ p : Permission, p ∈ get_permissions_for_role .admin ∧
        p ∉ get_permissions_for_role .analyst) ∧
    (∀ r : Role, (ROLE_PERMISSIONS.find? (fun e => e.1 = r)).isSome) := by
  decide

/-- Witness for C7: the theorem applied at a concrete permission. -/
theorem role_permission_mapping_invariant_witness :
    Permission.read_market_data ∈ get_permissions_for_role .analyst :=
  role_permission_mapping_invariant.1 Permission.read_market_data (by decide)

/-- C6. `check_user_access` is total (a Lean function by construction) and
returns true exactly for an admin role, or an analyst role with the target
user id equal to that of the identity; `enforce_user_access` is a no-op on a
null target and raises the access-denied error naming both user ids exactly
when the check returns false. -/
theorem check_user_access_characterization (t : Int) (u : UserInfo)
    (roles : List Role) :
    (check_user_access t u roles = true ↔
      Role.admin ∈ roles ∨ (Role.analyst ∈ roles ∧ t = u.user_id)) ∧
    enforce_user_access none u roles = .ok () ∧
    (check_user_access t u roles = true →
      enforce_user_access (some t) u roles = .ok ()) ∧
    (check_user_access t u roles = false →
      enforce_user_access (some t) u roles =
        .error (.accessDenied ("Access denied. User " ++ toString u.user_id
          ++ " cannot access data for user " ++ toString t))) := by
  refine ⟨?_, rfl, ?_, ?_⟩
  · simp [check_user_access]
  · intro h
    simp [enforce_user_access, h]
  · intro h
    simp [enforce_user_access, h]

/-- Witness for C6: an analyst querying another user is denied with the
message naming both ids. -/
theorem check_user_access_characterization_witness :
    enforce_user_access (some 5) ⟨3, "analyst", "", ["analyst"]⟩ [.analyst] =
      .error (.accessDenied ("Access denied. User " ++ toString (3 : Int)
        ++ " cannot access data for user " ++ toString (5 : Int))) :=
  (check_user_access_characterization 5 ⟨3, "analyst", "", ["analyst"]⟩
    [.analyst]).2.2.2 (by decide)

/-- C9. On a null or empty context, identity resolution returns the anonymous
identity when unauthenticated access is allowed (flag or debug mode) and the
auth-required error otherwise; the same dichotomy holds for a non-empty
context carrying no truthy token value. -/
theorem unauthenticated_context_dichotomy (st : Settings)
    (decode : String → Except String UserInfo) (ctx : Option AuthContext) :
    (ctx_truthy ctx = false →
      get_user_from_context st decode ctx =
        (if st.ALLOW_UNAUTHENTICATED_ACCESS || st.DEBUG then
          .ok (anonymous_user st.DEFAULT_UNAUTHENTICATED_ROLE)
        else .error .authContextRequired)) ∧
    (ctx_truthy ctx = true → context_token ctx = none →
      get_user_from_context st decode ctx =
        (if st.ALLOW_UNAUTHENTICATED_ACCESS || st.DEBUG then
          .ok (anonymous_user st.DEFAULT_UNAUTHENTICATED_ROLE)
        else .error .authTokenRequired)) := by
  constructor
  · intro h
    by_cases ha : (st.ALLOW_UNAUTHENTICATED_ACCESS || st.DEBUG : Bool)
    · simp [get_user_from_context, h, ha]
    · simp only [Bool.not_eq_true] at ha
      simp [get_user_from_context, h, ha]
  · intro h htok
    by_cases ha : (st.ALLOW_UNAUTHENTICATED_ACCESS || st.DEBUG : Bool)
    · simp [get_user_from_context, h, ha, htok]
    · simp only [Bool.not_eq_true] at ha
      simp [get_user_from_context, h, ha, htok]

/-- Witness for C9: with no context, a permissive policy yields the anonymous
identity and a strict policy fails. -/
theorem unauthenticated_context_dichotomy_witness :
    get_user_from_context ⟨true, false, "viewer"⟩ (fun _ => .error "no") none =
      .ok (anonymous_user "viewer") ∧
    get_user_from_context ⟨false, false, "viewer"⟩ (fun _ => .error "no") none =
      .error .authContextRequired := by
  constructor
  · have := (unauthenticated_context_dichotomy ⟨true, false, "viewer"⟩
      (fun _ => .error "no") none).1 (by decide)
    simpa using this
  · have := (unauthenticated_context_dichotomy ⟨false, false, "viewer"⟩
      (fun _ => .error "no") none).1 (by decide)
    simpa using this

/-- C2. Whenever a truthy token value is present in the context (under `token`
or `authorization`) and decoding it fails, identity resolution inside both the
role gate and the permission gate fails with the invalid-token error — under
every unauthenticated-access and debug setting — and never falls back to the
anonymous identity. -/
theorem token_present_invalid_never_falls_back (st : Settings)
    (decode : String → Except String UserInfo) (ctx : Option AuthContext)
    (t m : String) (allowed_roles : List Role)
    (required_permissions : List Permission)
    (htok : context_token ctx = some t)
    (hdec : decode (strip_bearer t) = .error m) :
    require_role st decode allowed_roles ctx =
      .error (.invalidToken ("Invalid or expired authentication token: " ++ m)) ∧
    require_permission st decode required_permissions ctx =
      .error (.invalidToken ("Invalid or expired authentication token: " ++ m)) := by
  have hht := has_token_of_context_token htok
  have hct := ctx_truthy_of_context_token htok
  have hg : get_user_from_context st decode ctx = .error (.decodeFailed m) := by
    simp [get_user_from_context, hct, htok, hdec]
  have hr : resolve_user_with_fallback st decode ctx =
      .error (.invalidToken ("Invalid or expired authentication token: " ++ m)) := by
    simp [resolve_user_with_fallback, hg, hht, RbacError.message]
  exact ⟨by simp [require_role, hr], by simp [require_permission, hr]⟩

/-- Witness for C2: a present-but-invalid bearer token is rejected by both
gates even with `ALLOW_UNAUTHENTICATED_ACCESS` and `DEBUG` both on. -/
theorem token_present_invalid_never_falls_back_witness :
    require_role ⟨true, true, "admin"⟩ (fun _ => .error "boom") [.admin]
        (some ⟨some "Bearer bad", none, false⟩) =
      .error (.invalidToken ("Invalid or expired authentication token: " ++ "boom")) ∧
    require_permission ⟨true, true, "admin"⟩ (fun _ => .error "boom")
        [.read_market_data] (some ⟨some "Bearer bad", none, false⟩) =
      .error (.invalidToken ("Invalid or expired authentication token: " ++ "boom")) :=
  token_present_invalid_never_falls_back ⟨true, true, "admin"⟩
    (fun _ => .error "boom") (some ⟨some "Bearer bad", none, false⟩)
    "Bearer bad" "boom" [.admin] [.read_market_data] (by decide) rfl

set_option maxRecDepth 8192

/-- C1 (code evaluation). The `query_transactions` permission gate demands
both `read:transactions` and `read:user_transactions` (AND semantics of
`require_permission`), so an analyst — holding only `read:user_transactions`
— is rejected at the gate with the missing-permissions error: the ownership
check is never reached and the returned error envelope does not contain
"Access denied". -/
theorem query_transactions_gate_requires_both_permissions :
    require_permission ⟨false, false, "viewer"⟩
        (fun _ => .ok ⟨3, "analyst", "analyst@example.com", ["analyst"]⟩)
        [.read_transactions, .read_user_transactions]
        (some ⟨some "analyst-token", none, false⟩) =
      .error (.missingPermissions [.read_transactions]) ∧
    (∀ body : GateSuccess → Envelope,
      query_transactions_tool ⟨false, false, "viewer"⟩
          (fun _ => .ok ⟨3, "analyst", "analyst@example.com", ["analyst"]⟩)
          body (some 5) (some ⟨some "analyst-token", none, false⟩) =
        { content := ["Validation error in tool " ++ sq ++ "query_transactions"
            ++ sq ++ ": Missing required permissions: "
            ++ py_str_list ["read:transactions"]],
          isError := true }) ∧
    contains_sub ("Validation error in tool " ++ sq ++ "query_transactions"
        ++ sq ++ ": Missing required permissions: "
        ++ py_str_list ["read:transactions"]) "Access denied" = false := by
  refine ⟨rfl, fun body => ?_, by decide⟩
  rfl

/-- Event counts of one tool-execution block: no `answer` or `done` events,
exactly one `tool_call` event. -/
theorem execute_tool_block_countP {A : Type} (tc : ToolCall A) (o : ExecOutcome)
    (step : Nat) :
    ((execute_tool_block tc o step).1.countP Event.isAnswer = 0) ∧
    ((execute_tool_block tc o step).1.countP Event.isDone = 0) ∧
    ((execute_tool_block tc o step).1.countP Event.isToolCall = 1) := by
  cases o <;>
    simp [execute_tool_block, Event.isAnswer, Event.isDone, Event.isToolCall,
      List.countP_cons, List.countP_nil]

/-- Event counts of the conversation loop: no `answer` or `done` events, and
at most `remaining + 1` `tool_call` events (one per executed turn). -/
theorem conversation_loop_countP {A : Type}
    (parse : List (ToolResultEntry A) → List (ToolCall A))
    (exec : ToolCall A → ExecOutcome)
    (chain : List (ToolResultEntry A) → List (ToolResultEntry A) → List (ToolCall A)) :
    ∀ (remaining : Nat) (tools : List (ToolCall A)) (step used : Nat)
      (allRes : List (ToolResultEntry A)),
      ((conversation_loop parse exec chain remaining tools step used allRes).1.countP
          Event.isAnswer = 0) ∧
      ((conversation_loop parse exec chain remaining tools step used allRes).1.countP
          Event.isDone = 0) ∧
      ((conversation_loop parse exec chain remaining tools step used allRes).1.countP
          Event.isToolCall ≤ remaining + 1) := by
  intro remaining
  induction remaining with
  | zero =>
      intro tools step used allRes
      rw [conversation_loop]
      cases htl : tools.getLast? with
      | none => simp
      | some tc =>
          have hb := execute_tool_block_countP tc (exec tc) step
          rcases he : execute_tool_block tc (exec tc) step with ⟨evs, entry, d⟩
          rw [he] at hb
          simp only [he]
          exact ⟨hb.1, hb.2.1, le_of_eq hb.2.2⟩
  | succ r ih =>
      intro tools step used allRes
      rw [conversation_loop]
      cases htl : tools.getLast? with
      | none => simp
      | some tc =>
          have hb := execute_tool_block_countP tc (exec tc) step
          rcases he : execute_tool_block tc (exec tc) step with ⟨evs, entry, d⟩
          rw [he] at hb
          simp only at hb
          rcases hb with ⟨hb1, hb2, hb3⟩
          simp only [he]
          by_cases hch : (chain [entry] (allRes ++ [entry])).isEmpty = true
          · simp [hch, hb1, hb2, hb3]
          · have hch2 : (chain [entry] (allRes ++ [entry])).isEmpty = false := by
              simpa using hch
            cases hp : parse (allRes ++ [entry]) with
            | nil => simp [hch2, hp, hb1, hb2, hb3]
            | cons x xs =>
                have hrec := ih (x :: xs) (step + 2) (used + d) (allRes ++ [entry])
                rcases hrl : conversation_loop parse exec chain r (x :: xs) (step + 2)
                    (used + d) (allRes ++ [entry]) with ⟨evs2, step2, used2, all2⟩
                rw [hrl] at hrec
                simp only at hrec
                rcases hrec with ⟨hr1, hr2, hr3⟩
                simp [hch2, hp, hrl, List.countP_append, hb1, hb2, hb3, hr1, hr2]
                omega

/-- The help path chunk stream consists of `answer` events only. -/
theorem answer_chunk_events_countP :
    ∀ (chunks : List String) (step : Nat),
      ((answer_chunk_events chunks step).countP Event.isDone = 0) ∧
      ((answer_chunk_events chunks step).countP Event.isToolCall = 0) ∧
      ((answer_chunk_events chunks step).countP Event.isAnswer = chunks.length) := by
  intro chunks
  induction chunks with
  | nil => intro step; simp [answer_chunk_events]
  | cons c cs ih =>
      intro step
      have := ih (step + 1)
      simp [answer_chunk_events, List.countP_cons, Event.isDone, Event.isToolCall,
        Event.isAnswer, this.1, this.2.1, this.2.2]

/-- The last element of a list extended by two elements. -/
theorem getLast?_append_two {α : Type} (l : List α) (a b : α) :
    (l ++ [a, b]).getLast? = some b := by
  rw [show l ++ [a, b] = (l ++ [a]) ++ [b] by simp]
  exact List.getLast?_concat _

/-- C4. For every turn-1 parse, every parse-with-previous-results behaviour,
every tool-execution behaviour, every chaining-decision behaviour (including
one that always proposes new tools) and every synthesis behaviour, a
reasoning call emits at most `MAX_TURNS` tool-executing turns (observable as
`tool_call` events, one per turn), emits exactly one `done` event, that
`done` event is the last event, and the cap is the constant 5, independent of
every input. -/
theorem reason_turn_cap_and_single_done {A : Type} (parse1 : List (ToolCall A))
    (parse : List (ToolResultEntry A) → List (ToolCall A))
    (exec : ToolCall A → ExecOutcome)
    (chain : List (ToolResultEntry A) → List (ToolResultEntry A) → List (ToolCall A))
    (gen : List (ToolResultEntry A) → Except String String)
    (query : String) (include_thinking : Bool) :
    ((reason parse1 parse exec chain gen query include_thinking).countP
        Event.isToolCall ≤ MAX_TURNS) ∧
    ((reason parse1 parse exec chain gen query include_thinking).countP
        Event.isDone = 1) ∧
    ((reason parse1 parse exec chain gen query include_thinking).getLast?.map
        Event.isDone = some true) ∧
    MAX_TURNS = 5 := by
  rw [reason]
  cases include_thinking with
  | false =>
      cases parse1 with
      | nil =>
          have hc := answer_chunk_events_countP
            (chunk_text (generate_help_message query) 50) (0 + 1)
          refine ⟨?_, ?_, ?_, rfl⟩
          · simp [List.countP_append, List.countP_cons, Event.isToolCall,
              hc.2.1, MAX_TURNS]
          · simp [List.countP_append, List.countP_cons, Event.isDone, hc.1]
          · rw [List.getLast?_concat]
            rfl
      | cons t ts =>
          have hl := conversation_loop_countP parse exec chain (MAX_TURNS - 1)
            (t :: ts) 0 0 []
          rcases hcl : conversation_loop parse exec chain (MAX_TURNS - 1)
              (t :: ts) 0 0 [] with ⟨evs, stp, used, allRes⟩
          rw [hcl] at hl
          simp only at hl
          refine ⟨?_, ?_, ?_, rfl⟩
          · have h3 := hl.2.2
            have hm : MAX_TURNS = 5 := rfl
            simp [hcl, List.countP_append, List.countP_cons, Event.isToolCall]
            omega
          · simp [hcl, List.countP_append, List.countP_cons, Event.isDone, hl.2.1]
          · simp only [hcl]
            rw [getLast?_append_two]
            rfl
  | true =>
      cases parse1 with
      | nil =>
          have hc := answer_chunk_events_countP
            (chunk_text (generate_help_message query) 50) (1 + 1)
          refine ⟨?_, ?_, ?_, rfl⟩
          · simp [List.countP_append, List.countP_cons, Event.isToolCall,
              hc.2.1, MAX_TURNS]
          · simp [List.countP_append, List.countP_cons, Event.isDone, hc.1]
          · rw [List.getLast?_concat]
            rfl
      | cons t ts =>
          have hl := conversation_loop_countP parse exec chain (MAX_TURNS - 1)
            (t :: ts) 1 0 []
          rcases hcl : conversation_loop parse exec chain (MAX_TURNS - 1)
              (t :: ts) 1 0 [] with ⟨evs, stp, used, allRes⟩
          rw [hcl] at hl
          simp only at hl
          refine ⟨?_, ?_, ?_, rfl⟩
          · have h3 := hl.2.2
            have hm : MAX_TURNS = 5 := rfl
            simp [hcl, List.countP_append, List.countP_cons, Event.isToolCall]
            omega
          · simp [hcl, List.countP_append, List.countP_cons, Event.isDone, hl.2.1]
          · simp only [hcl]
            rw [getLast?_append_two]
            rfl

/-- C5. Whenever the turn-1 parse identifies at least one tool, the reasoning
call emits exactly one `answer` event and exactly one terminal `done` event,
for every combination of tool-execution outcomes (success, error envelope, or
exception) and every synthesis outcome (success or exception): the synthesis
fallbacks make the answer total, and the `done` event is never skipped. -/
theorem reason_single_answer_single_done {A : Type} (parse1 : List (ToolCall A))
    (parse : List (ToolResultEntry A) → List (ToolCall A))
    (exec : ToolCall A → ExecOutcome)
    (chain : List (ToolResultEntry A) → List (ToolResultEntry A) → List (ToolCall A))
    (gen : List (ToolResultEntry A) → Except String String)
    (query : String) (include_thinking : Bool)
    (h : parse1 ≠ []) :
    ((reason parse1 parse exec chain gen query include_thinking).countP
        Event.isAnswer = 1) ∧
    ((reason parse1 parse exec chain gen query include_thinking).countP
        Event.isDone = 1) := by
  rw [reason]
  cases include_thinking with
  | false =>
      cases parse1 with
      | nil => exact absurd rfl h
      | cons t ts =>
          have hl := conversation_loop_countP parse exec chain (MAX_TURNS - 1)
            (t :: ts) 0 0 []
          rcases hcl : conversation_loop parse exec chain (MAX_TURNS - 1)
              (t :: ts) 0 0 [] with ⟨evs, stp, used, allRes⟩
          rw [hcl] at hl
          simp only at hl
          constructor <;>
            simp [hcl, List.countP_append, List.countP_cons, Event.isDone,
              Event.isAnswer, hl.1, hl.2.1]
  | true =>
      cases parse1 with
      | nil => exact absurd rfl h
      | cons t ts =>
          have hl := conversation_loop_countP parse exec chain (MAX_TURNS - 1)
            (t :: ts) 1 0 []
          rcases hcl : conversation_loop parse exec chain (MAX_TURNS - 1)
              (t :: ts) 1 0 [] with ⟨evs, stp, used, allRes⟩
          rw [hcl] at hl
          simp only at hl
          constructor <;>
            simp [hcl, List.countP_append, List.countP_cons, Event.isDone,
              Event.isAnswer, hl.1, hl.2.1]

/-- Witness for C5: a one-tool parse with a failing synthesis still yields one
`answer` and one `done` event. -/
theorem reason_single_answer_single_done_witness :
    ((reason (A := Unit) [⟨"get_market_summary", ()⟩] (fun _ => [])
        (fun _ => .raised "db down") (fun _ _ => []) (fun _ => .error "synth boom")
        "q" true).countP Event.isAnswer = 1) ∧
    ((reason (A := Unit) [⟨"get_market_summary", ()⟩] (fun _ => [])
        (fun _ => .raised "db down") (fun _ _ => []) (fun _ => .error "synth boom")
        "q" true).countP Event.isDone = 1) :=
  reason_single_answer_single_done [⟨"get_market_summary", ()⟩] (fun _ => [])
    (fun _ => .raised "db down") (fun _ _ => []) (fun _ => .error "synth boom")
    "q" true (by simp)

/-- C3 (code evaluation). The `for tool_call in tools_to_call` loop body ends
after binding `tool_name`/`tool_args` (mock_orchestrator.py lines 149-151), so
when the turn-1 parse yields two tool calls, only the last one is executed:
the run emits a single `tool_call`/`tool_result` pair — for the second parsed
tool — and reports `tool_calls_made = 1` in its `done` event. -/
theorem only_last_parsed_tool_executes :
    (reason (A := Unit) [⟨"query_transactions", ()⟩, ⟨"get_market_summary", ()⟩]
        (fun _ => []) (fun _ => .envelope ⟨["ok"], false⟩) (fun _ _ => [])
        (fun _ => .ok "fa") "q" false) =
      [Event.tool_call "Calling tool: get_market_summary" 1 "get_market_summary",
       Event.tool_result "Tool get_market_summary completed successfully" 2
         "get_market_summary" false,
       Event.answer "fa" 3,
       Event.done "Reasoning complete" 4 "fa" 1] ∧
    ([(⟨"query_transactions", ()⟩ : ToolCall Unit),
      ⟨"get_market_summary", ()⟩].length = 2) := by
  constructor
  · rfl
  · rfl

/-- C10. On the non-exception execution path the `tool_result` event always
carries `is_error: false` and the text "Tool {name} completed successfully",
even when the returned envelope has `isError: true`; an `is_error: true`
event arises only from the exception path; and the `isError` of the envelope is
still recorded in the internal tool result and reflected in the status and
errors list of the final answer. -/
theorem tool_result_event_success_masking {A S : Type} (tc : ToolCall A)
    (env : Envelope) (msg : String) (step : Nat)
    (summarize : String → String → S) (extract_pid : String → Option Nat)
    (query : String) :
    ((execute_tool_block tc (.envelope env) step).1 =
      [Event.tool_call ("Calling tool: " ++ tc.name) (step + 1) tc.name,
       Event.tool_result ("Tool " ++ tc.name ++ " completed successfully")
         (step + 2) tc.name false]) ∧
    ((execute_tool_block tc (.envelope env) step).2.1.is_error = env.isError) ∧
    ((execute_tool_block tc (.envelope env) step).1.countP Event.isErrorResult = 0) ∧
    ((execute_tool_block tc (.raised msg) step).1.countP Event.isErrorResult = 1) ∧
    (env.isError = true →
      (generate_final_answer summarize extract_pid query
          [(execute_tool_block tc (.envelope env) step).2.1]).status = "error" ∧
      (generate_final_answer summarize extract_pid query
          [(execute_tool_block tc (.envelope env) step).2.1]).errors =
        [⟨tc.name, format_tool_result env⟩]) := by
  refine ⟨rfl, rfl,
    by simp [execute_tool_block, Event.isErrorResult, List.countP_cons],
    by simp [execute_tool_block, Event.isErrorResult, List.countP_cons],
    fun h => ?_⟩
  constructor <;>
    simp [execute_tool_block, generate_final_answer, h]

/-- Witness for C10: an RBAC denial surfaced as an error envelope is recorded
as an error in the synthesized answer even though the streamed event claimed
success. -/
theorem tool_result_event_success_masking_witness :
    (generate_final_answer (S := String) (fun _ r => r) (fun _ => none) "q"
        [(execute_tool_block (⟨"query_transactions", ()⟩ : ToolCall Unit)
            (.envelope ⟨["Access denied"], true⟩) 0).2.1]).status = "error" ∧
    (generate_final_answer (S := String) (fun _ r => r) (fun _ => none) "q"
        [(execute_tool_block (⟨"query_transactions", ()⟩ : ToolCall Unit)
            (.envelope ⟨["Access denied"], true⟩) 0).2.1]).errors =
      [⟨"query_transactions", format_tool_result ⟨["Access denied"], true⟩⟩] :=
  (tool_result_event_success_masking (⟨"query_transactions", ()⟩ : ToolCall Unit)
    ⟨["Access denied"], true⟩ "m" 0 (fun _ r => r) (fun _ => none) "q").2.2.2.2 rfl

/-- C8 counterexample. The dedup check compares the derived symbol set only
with the LAST recorded `get_market_summary` call: with accumulated results
holding a `get_market_summary` call for exactly the derived set {AAPL}
followed by one for {MSFT}, the chaining decision emits a duplicate
`get_market_summary` call for {AAPL} instead of the empty tool list the claim
requires. -/
theorem chaining_dedup_counterexample :
    (([⟨"analyze_risk_metrics", "Portfolio 1 Risk Analysis:", false, ⟨none, none⟩⟩,
       ⟨"get_market_summary", "AAPL: data", false, ⟨some ["AAPL"], some "day"⟩⟩,
       ⟨"get_market_summary", "MSFT: data", false, ⟨some ["MSFT"], some "day"⟩⟩] :
        List (ToolResultEntry MarketArguments)).filter
          (fun r => r.tool_name = "get_market_summary")).any
        (fun r => sym_set_eq (r.arguments.symbols.getD []) ["AAPL"]) = true ∧
    extract_portfolio_symbols (fun _ => ["AAPL"])
      [⟨"analyze_risk_metrics", "Portfolio 1 Risk Analysis:", false, ⟨none, none⟩⟩,
       ⟨"get_market_summary", "AAPL: data", false, ⟨some ["AAPL"], some "day"⟩⟩,
       ⟨"get_market_summary", "MSFT: data", false, ⟨some ["MSFT"], some "day"⟩⟩]
      = ["AAPL"] ∧
    determine_chained_tools (fun _ => ["AAPL"]) "show market data"
      [⟨"analyze_risk_metrics", "Portfolio 1 Risk Analysis:", false, ⟨none, none⟩⟩]
      [⟨"analyze_risk_metrics", "Portfolio 1 Risk Analysis:", false, ⟨none, none⟩⟩,
       ⟨"get_market_summary", "AAPL: data", false, ⟨some ["AAPL"], some "day"⟩⟩,
       ⟨"get_market_summary", "MSFT: data", false, ⟨some ["MSFT"], some "day"⟩⟩]
      = [⟨"get_market_summary", ⟨some ["AAPL"], some "day"⟩⟩] := by
  refine ⟨by decide, by decide, by decide⟩

/-- C8 (amended). If the most recent `get_market_summary` call in the
accumulated results carries exactly the symbol set the chaining decision
derives from the portfolio risk result, then the chaining decision emits no
further `get_market_summary` call — both in `_determine_chained_tools` and in
the chaining prefix of `_parse_query_to_tools`. -/
theorem chaining_dedup_on_last_market_call (extract_sym : String → List String)
    (query : String)
    (current_turn all_results : List (ToolResultEntry MarketArguments))
    (m : ToolResultEntry MarketArguments)
    (hlast : (all_results.filter
        (fun r => r.tool_name = "get_market_summary")).getLast? = some m)
    (hset : sym_set_eq (extract_portfolio_symbols extract_sym all_results)
        (m.arguments.symbols.getD []) = true) :
    determine_chained_tools extract_sym query current_turn all_results = [] ∧
    (parse_query_previous_chain extract_sym query all_results = none ∨
     parse_query_previous_chain extract_sym query all_results = some []) := by
  constructor
  · rw [determine_chained_tools]
    by_cases hcond : (!(current_turn.filter
          (fun r => r.tool_name = "analyze_risk_metrics")).isEmpty
        && (["market", "price", "holdings", "stock", "symbol"].any
              (fun kw => contains_sub (lower_string query) kw))) = true
    · simp only [hcond, if_true, hlast, hset, if_pos]
    · simp only [hcond, Bool.false_eq_true, if_false]
  · rw [parse_query_previous_chain]
    by_cases hcond : (!(extract_portfolio_symbols extract_sym all_results).isEmpty
        && (["market", "price", "holdings", "stock"].any
              (fun kw => contains_sub (lower_string query) kw))) = true
    · right
      simp only [hcond, if_true, hlast, hset, if_pos]
    · left
      simp only [hcond, Bool.false_eq_true, if_false]

/-- Witness for C8 (amended): a single prior market call covering the derived
set suppresses chaining. -/
theorem chaining_dedup_on_last_market_call_witness :
    determine_chained_tools (fun _ => ["AAPL"]) "show market data"
      [⟨"analyze_risk_metrics", "Portfolio 1 Risk Analysis:", false, ⟨none, none⟩⟩]
      [⟨"analyze_risk_metrics", "Portfolio 1 Risk Analysis:", false, ⟨none, none⟩⟩,
       ⟨"get_market_summary", "AAPL: data", false, ⟨some ["AAPL"], some "day"⟩⟩]
      = [] ∧
    (parse_query_previous_chain (fun _ => ["AAPL"]) "show market data"
      [⟨"analyze_risk_metrics", "Portfolio 1 Risk Analysis:", false, ⟨none, none⟩⟩,
       ⟨"get_market_summary", "AAPL: data", false, ⟨some ["AAPL"], some "day"⟩⟩]
      = none ∨
     parse_query_previous_chain (fun _ => ["AAPL"]) "show market data"
      [⟨"analyze_risk_metrics", "Portfolio 1 Risk Analysis:", false, ⟨none, none⟩⟩,
       ⟨"get_market_summary", "AAPL: data", false, ⟨some ["AAPL"], some "day"⟩⟩]
      = some []) :=
  chaining_dedup_on_last_market_call (fun _ => ["AAPL"]) "show market data"
    [⟨"analyze_risk_metrics", "Portfolio 1 Risk Analysis:", false, ⟨none, none⟩⟩]
    [⟨"analyze_risk_metrics", "Portfolio 1 Risk Analysis:", false, ⟨none, none⟩⟩,
     ⟨"get_market_summary", "AAPL: data", false, ⟨some ["AAPL"], some "day"⟩⟩]
    ⟨"get_market_summary", "AAPL: data", false, ⟨some ["AAPL"], some "day"⟩⟩
    (by decide) (by decide)

end Cortx


